import Mathlib

/-!
Verification of the chat-completion client library (package `openai`,
file `chat_stream.go` and its companion chat definitions) against its
natural-language specification.

The Go code is shallowly embedded:
* Go structs become Lean structures; `string` becomes `String`; Go `int`
  and `int64` become `Int` (no arithmetic is ever performed on them here);
  `float32` sampling parameters are carried as their 32-bit pattern
  (a `Nat`), since the code never computes with them.
* JSON wire objects are modelled at the level of "which keys are present
  with which values": an `Option` field is `none` exactly when the key is
  absent from the encoded object.  This captures precisely what the
  custom `MarshalJSON` implementations and the `omitempty` tags decide.
* The two client operations are embedded as pure functions over a
  `Client` record that carries the outcomes of the external collaborators
  (request builder, HTTP transport).  Each operation additionally returns
  the list of I/O effects (request built / request dispatched) it
  performed, so "no network I/O" is the statement that the effect list
  is empty.
* The streaming reader (`streamReader.Recv`) is not part of the sources
  at hand, only its construction site; it is modelled from the
  specification's state-machine description (spec section 4.3).
-/

namespace OpenAI

/-! ## Data model: messages and function calls (chat definitions) -/

/-- Go: `type Arguments string`. -/
abbrev Arguments := String

/-- Go struct `FunctionCall` with fields `Name string` and
`Arguments Arguments`, both tagged `omitempty`. -/
structure FunctionCall where
  name : String
  arguments : Arguments
deriving DecidableEq, Repr

/-- Go: `var zeroFunctionCall = FunctionCall{}`. -/
def zeroFunctionCall : FunctionCall := { name := "", arguments := "" }

/-- Go struct `ChatCompletionMessage`: `Role` and `Content` have plain
JSON tags (always emitted), `FunctionCall` and `Name` are `omitempty`. -/
structure ChatCompletionMessage where
  role : String
  content : String
  functionCall : FunctionCall
  name : String
deriving DecidableEq, Repr

/-- Go struct `ChatCompletionStreamChoiceDelta`: `Content`, `Role` and
`FunctionCall` all tagged `omitempty`. -/
structure ChatCompletionStreamChoiceDelta where
  content : String
  role : String
  functionCall : FunctionCall
deriving DecidableEq, Repr

/-! ## JSON wire objects

A wire object records, for each possible key, whether the key is present
and with which value.  `none` means the key is absent from the encoded
JSON object. -/

/-- Wire form of a `FunctionCall` sub-object.  Both fields carry
`omitempty`, so each key may be absent. -/
structure EncodedFunctionCall where
  name : Option String
  arguments : Option String
deriving DecidableEq, Repr

/-- Wire form of a `ChatCompletionMessage`: `role` and `content` are
always present (no `omitempty`), `function_call` and `name` may be
absent. -/
structure EncodedMessage where
  role : String
  content : String
  function_call : Option EncodedFunctionCall
  name : Option String
deriving DecidableEq, Repr

/-- Wire form of a `ChatCompletionStreamChoiceDelta`: all three keys may
be absent. -/
structure EncodedDelta where
  content : Option String
  role : Option String
  function_call : Option EncodedFunctionCall
deriving DecidableEq, Repr

/-- Go `encoding/json` `omitempty` on a string field: the key is absent
exactly when the string is empty. -/
def omitemptyStr (s : String) : Option String :=
  if s = "" then none else some s

/-- Default (tag-driven) encoding of a `FunctionCall` value, as performed
by `json.Marshal` on the struct with its `omitempty` tags: each sub-key
is present iff the corresponding string is non-empty. -/
def FunctionCall.marshal (f : FunctionCall) : EncodedFunctionCall :=
  { name := omitemptyStr f.name, arguments := omitemptyStr f.arguments }

/-- `ChatCompletionMessage.MarshalJSON` (chat definitions, lines 161-181).
When `FunctionCall` equals `zeroFunctionCall` the code marshals a wrapper
whose depth-0 `FunctionCall *FunctionCall` field is `nil`; with
`omitempty` on a nil pointer the `function_call` key is entirely absent
(the embedded alias's own `FunctionCall` field is shadowed by the
shallower field, per Go's JSON field-resolution rules).  Otherwise the
wrapper carries a non-nil pointer to `c.FunctionCall`, so the key is
present and its value is the tag-driven encoding of the sub-object. -/
def ChatCompletionMessage.marshalJSON (c : ChatCompletionMessage) : EncodedMessage :=
  if c.functionCall = zeroFunctionCall then
    { role := c.role, content := c.content, function_call := none,
      name := omitemptyStr c.name }
  else
    { role := c.role, content := c.content,
      function_call := some c.functionCall.marshal,
      name := omitemptyStr c.name }

/-- `ChatCompletionStreamChoiceDelta.MarshalJSON` (chat_stream.go,
lines 17-37): same two-branch scheme as the message marshaler. -/
def ChatCompletionStreamChoiceDelta.marshalJSON
    (c : ChatCompletionStreamChoiceDelta) : EncodedDelta :=
  if c.functionCall = zeroFunctionCall then
    { content := omitemptyStr c.content, role := omitemptyStr c.role,
      function_call := none }
  else
    { content := omitemptyStr c.content, role := omitemptyStr c.role,
      function_call := some c.functionCall.marshal }

/-- Default `json.Unmarshal` into a `FunctionCall` value: an absent key
leaves the corresponding field at its zero value (empty string). -/
def EncodedFunctionCall.unmarshal (e : EncodedFunctionCall) : FunctionCall :=
  { name := e.name.getD "", arguments := e.arguments.getD "" }

/-- Default `json.Unmarshal` into a `ChatCompletionMessage` (the type
declares no custom unmarshaler): absent keys leave zero values. -/
def EncodedMessage.unmarshal (e : EncodedMessage) : ChatCompletionMessage :=
  { role := e.role, content := e.content,
    functionCall := (e.function_call.map EncodedFunctionCall.unmarshal).getD zeroFunctionCall,
    name := e.name.getD "" }

/-! ## Request model (chat definitions) -/

/-- Go: `type JSONSchemaType string`. -/
abbrev JSONSchemaType := String

/-- Go struct `JSONSchema`; `Properties map[string]*JSONSchema` is
modelled as an association list of optional sub-schemas. -/
inductive JSONSchema where
  | mk : JSONSchemaType → String → List String →
      List (String × Option JSONSchema) → List String → JSONSchema

/-- Go struct `FuncParameters`; `Properties map[string]JSONSchema` as an
association list. -/
structure FuncParameters where
  type : JSONSchemaType
  properties : List (String × JSONSchema)
  required : List String

/-- Go struct `Functions`. -/
structure Functions where
  name : String
  description : String
  parameters : FuncParameters

/-- Go struct `ChatCompletionRequest`.  `float32` parameters are carried
as their 32-bit patterns (`Nat`); no arithmetic is ever performed on
them.  `LogitBias map[string]int` is an association list. -/
structure ChatCompletionRequest where
  model : String
  messages : List ChatCompletionMessage
  maxTokens : Int
  temperature : Nat
  topP : Nat
  n : Int
  stream : Bool
  stop : List String
  presencePenalty : Nat
  frequencyPenalty : Nat
  logitBias : List (String × Int)
  user : String
  functions : List Functions

/-- Go: `type FinishReason string`. -/
abbrev FinishReason := String

/-- Go struct `ChatCompletionChoice`. -/
structure ChatCompletionChoice where
  index : Int
  message : ChatCompletionMessage
  finishReason : FinishReason

/-- Modelled from the spec: the `Usage` struct is referenced by
`ChatCompletionResponse` but is not among the sources at hand; it is an
inert record of token counts, never inspected by the code here. -/
structure Usage where
  promptTokens : Int
  completionTokens : Int
  totalTokens : Int

/-- Go struct `ChatCompletionResponse`. -/
structure ChatCompletionResponse where
  id : String
  object : String
  created : Int
  model : String
  choices : List ChatCompletionChoice
  usage : Usage

/-! ## Errors and collaborators -/

/-- The error values the two entry points can surface: the three
sentinel errors declared in the chat definitions (lines 127-131), the
structured API error built from a non-2xx response, and opaque
collaborator failures (request builder / transport / send). -/
inductive GoError where
  | chatCompletionStreamNotSupported
  | modelNotSupportedWithPlugins
  | chatCompletionInvalidModel
  | apiError (statusCode : Nat) (body : String)
  | buildFailure (msg : String)
  | transportFailure (msg : String)
deriving DecidableEq, Repr

/-- A line of the streamed response body, as a character list (a line may
still carry its trailing CR/LF here; the reader trims it). -/
abbrev Line := List Char

/-- The transport's view of an HTTP response: status code, the error body
used by `handleErrorResp` on failure statuses, and the response body as
the sequence of lines the stream reader will read. -/
structure HTTPResponse where
  statusCode : Nat
  errBody : String
  bodyLines : List Line
deriving DecidableEq, Repr

/-- Modelled from the spec: `isFailureStatusCode` is not among the
sources at hand; the spec says a "non-2xx status" is converted to a
structured API error. -/
def isFailureStatusCode (resp : HTTPResponse) : Bool :=
  resp.statusCode < 200 || 300 ≤ resp.statusCode

/-- An I/O effect of a client operation: a request object was built for
the given payload, or a built request was dispatched through the HTTP
transport. -/
inductive Effect where
  | buildRequest (payload : ChatCompletionRequest)
  | dispatch (payload : ChatCompletionRequest)

/-- The request payload an effect carries. -/
def Effect.payload : Effect → ChatCompletionRequest
  | .buildRequest r => r
  | .dispatch r => r

/-- Client configuration; the only field the code at hand reads is
`EmptyMessagesLimit`. -/
structure ClientConfig where
  emptyMessagesLimit : Nat

/-- The client, carrying its configuration and the behaviour of its
external collaborators.  `checkModelSupportsPlugins` and
`checkEndpointSupportsModel` are modelled from the spec as immutable
predicate tables (their bodies are not among the sources at hand);
`buildOutcome`/`sendOutcome` abstract `requestBuilder.Build` and
`sendRequest` on the buffered path, `streamBuildOutcome`/`doOutcome`
abstract `newStreamRequest` and `config.HTTPClient.Do` on the streaming
path. -/
structure Client where
  config : ClientConfig
  checkModelSupportsPlugins : String → Bool
  checkEndpointSupportsModel : String → String → Bool
  buildOutcome : Except GoError Unit
  sendOutcome : Except GoError ChatCompletionResponse
  streamBuildOutcome : Except GoError Unit
  doOutcome : Except GoError HTTPResponse

/-- Modelled from the spec: `handleErrorResp` is not among the sources at
hand; the spec says the non-2xx body "is parsed into a structured error
message". -/
def Client.handleErrorResp (_c : Client) (resp : HTTPResponse) : GoError :=
  .apiError resp.statusCode resp.errBody

/-! ## Stream reader state -/

/-- The mutable state of `streamReader` as constructed by
`CreateChatCompletionStream` (chat_stream.go lines 99-107): the
configured tolerance, the running empty-message counter, the finished
flag, and the remaining lines of the response body (modelling the
buffered reader over `resp.Body`). -/
structure StreamReaderState where
  emptyMessagesLimit : Nat
  emptyMessagesCount : Nat
  isFinished : Bool
  lines : List Line
deriving DecidableEq, Repr

/-- Go: `ChatCompletionStream` wraps a
`streamReader[ChatCompletionStreamResponse]`. -/
abbrev ChatCompletionStream := StreamReaderState

/-! ## Client operations -/

/-- `CreateChatCompletion` (chat definitions, lines 263-290), with its
I/O effects made explicit: the returned list records, in order, the
request-build and dispatch actions performed. -/
def Client.createChatCompletion (c : Client) (request : ChatCompletionRequest) :
    Except GoError ChatCompletionResponse × List Effect :=
  if request.stream then
    (.error .chatCompletionStreamNotSupported, [])
  else if !(c.checkModelSupportsPlugins request.model) then
    (.error .modelNotSupportedWithPlugins, [])
  else if !(c.checkEndpointSupportsModel "/chat/completions" request.model) then
    (.error .chatCompletionInvalidModel, [])
  else
    match c.buildOutcome with
    | .error e => (.error e, [.buildRequest request])
    | .ok _ =>
      match c.sendOutcome with
      | .error e => (.error e, [.buildRequest request, .dispatch request])
      | .ok resp => (.ok resp, [.buildRequest request, .dispatch request])

/-- `CreateChatCompletionStream` (chat_stream.go, lines 70-109), with its
I/O effects made explicit.  Line 85 (`request.Stream = true`) rebinds the
callee's copy of the request before it is handed to `newStreamRequest`. -/
def Client.createChatCompletionStream (c : Client) (request : ChatCompletionRequest) :
    Except GoError ChatCompletionStream × List Effect :=
  if !(c.checkModelSupportsPlugins request.model) then
    (.error .modelNotSupportedWithPlugins, [])
  else if !(c.checkEndpointSupportsModel "/chat/completions" request.model) then
    (.error .chatCompletionInvalidModel, [])
  else
    let request := { request with stream := true }
    match c.streamBuildOutcome with
    | .error e => (.error e, [.buildRequest request])
    | .ok _ =>
      match c.doOutcome with
      | .error e => (.error e, [.buildRequest request, .dispatch request])
      | .ok resp =>
        if isFailureStatusCode resp then
          (.error (c.handleErrorResp resp), [.buildRequest request, .dispatch request])
        else
          (.ok { emptyMessagesLimit := c.config.emptyMessagesLimit,
                 emptyMessagesCount := 0, isFinished := false,
                 lines := resp.bodyLines },
           [.buildRequest request, .dispatch request])

/-- Go passes `request` to `CreateChatCompletionStream` by value (the
parameter is a struct, not a pointer): at the call site the callee
receives a copy, and line 85 mutates only that copy.  This wrapper makes
the call protocol explicit, returning the caller's slot alongside the
call's result; by-value semantics means the caller's slot is the
unmodified argument. -/
def Client.createChatCompletionStreamByValueCall (c : Client)
    (callerRequest : ChatCompletionRequest) :
    (Except GoError ChatCompletionStream × List Effect) × ChatCompletionRequest :=
  (c.createChatCompletionStream callerRequest, callerRequest)

/-! ## Stream reader `recv` (modelled from the spec) -/

/-- The SSE event-data marker the reader expects at the start of a
payload line: the characters of "data: ". -/
def headerData : Line := ['d', 'a', 't', 'a', ':', ' ']

/-- The explicit termination sentinel payload: the characters of
"[DONE]". -/
def doneSentinel : Line := ['[', 'D', 'O', 'N', 'E', ']']

/-- Trim trailing carriage-return/newline characters from a line
(spec section 4.3 step 2). -/
def trimCRLF (l : Line) : Line :=
  (l.reverse.dropWhile (fun c => c = '\n' || c = '\r')).reverse

/-- The possible outcomes of one `recv` call (spec section 4.3):
a decoded event, clean termination (end of stream, the `[DONE]`
sentinel, or an already-finished reader), the empty-message tolerance
being exceeded, or a payload that failed to decode (carrying the raw
offending bytes, as accumulated for diagnostics). -/
inductive RecvOutcome (T : Type) where
  | received (event : T)
  | done
  | failedEmptyExceeded
  | failedDecode (raw : Line)
deriving DecidableEq, Repr

/-- Whether an outcome is terminal for the reader: everything except
`received` (spec section 4.3). -/
def RecvOutcome.isTerminal {T : Type} : RecvOutcome T → Bool
  | .received _ => false
  | _ => true

/-- Modelled from the spec: the line-processing loop of
`streamReader.recv` (spec section 4.3, steps 1-4), whose code is not
among the sources at hand.  Input is the remaining lines of the response
body; reaching the end of the list is a clean end-of-stream.  Arguments:
decoder, tolerance limit, current empty-message counter, remaining
lines.  Returns the outcome, the new counter, whether the reader is now
finished, and the unconsumed lines. -/
def recvLoop {T : Type} (dec : Line → Option T) (limit : Nat) :
    Nat → List Line → RecvOutcome T × Nat × Bool × List Line
  | count, [] => (.done, count, true, [])
  | count, l :: rest =>
    let line := trimCRLF l
    if line.isEmpty then
      let count := count + 1
      if limit < count then (.failedEmptyExceeded, count, true, rest)
      else recvLoop dec limit count rest
    else if headerData.isPrefixOf line then
      let payload := line.drop headerData.length
      if payload = doneSentinel then (.done, count, true, rest)
      else
        match dec payload with
        | some e => (.received e, 0, false, rest)
        | none => (.failedDecode payload, count, true, rest)
    else
      recvLoop dec limit count rest

/-- Modelled from the spec: `streamReader.recv` (spec section 4.3).  A
finished reader yields no further events: every later call returns the
terminal `done` outcome and leaves the state unchanged. -/
def StreamReaderState.recv {T : Type} (dec : Line → Option T)
    (s : StreamReaderState) : RecvOutcome T × StreamReaderState :=
  if s.isFinished then (.done, s)
  else
    let (outcome, count, fin, rest) :=
      recvLoop dec s.emptyMessagesLimit s.emptyMessagesCount s.lines
    (outcome,
     { s with emptyMessagesCount := count, isFinished := fin, lines := rest })

/-! ## Concrete values used by the witnesses -/

/-- A baseline request with every field at its zero value except the
model id. -/
def req0 : ChatCompletionRequest :=
  { model := "gpt-3.5-turbo", messages := [], maxTokens := 0,
    temperature := 0, topP := 0, n := 0, stream := false, stop := [],
    presencePenalty := 0, frequencyPenalty := 0, logitBias := [],
    user := "", functions := [] }

/-- A successful (2xx) HTTP response with an empty body. -/
def resp200 : HTTPResponse :=
  { statusCode := 200, errBody := "", bodyLines := [] }

/-- A zero-valued buffered chat response. -/
def chatResp0 : ChatCompletionResponse :=
  { id := "", object := "", created := 0, model := "", choices := [],
    usage := { promptTokens := 0, completionTokens := 0, totalTokens := 0 } }

/-- A client whose validation tables accept everything and whose
collaborators all succeed. -/
def client0 : Client :=
  { config := { emptyMessagesLimit := 5 },
    checkModelSupportsPlugins := fun _ => true,
    checkEndpointSupportsModel := fun _ _ => true,
    buildOutcome := .ok (),
    sendOutcome := .ok chatResp0,
    streamBuildOutcome := .ok (),
    doOutcome := .ok resp200 }

/-- A client whose validation tables reject every model. -/
def clientReject : Client :=
  { config := { emptyMessagesLimit := 5 },
    checkModelSupportsPlugins := fun _ => false,
    checkEndpointSupportsModel := fun _ _ => false,
    buildOutcome := .ok (),
    sendOutcome := .ok chatResp0,
    streamBuildOutcome := .ok (),
    doOutcome := .ok resp200 }

/-- A concrete payload decoder used by the stream-reader witness: it
decodes the payload "42" and rejects everything else. -/
def decode42 : Line → Option Nat :=
  fun l => if l = ['4', '2'] then some 42 else none

/-! ## Helper lemmas -/

theorem omitemptyStr_getD (s : String) : (omitemptyStr s).getD "" = s := by
  unfold omitemptyStr
  by_cases h : s = "" <;> simp [h]

theorem FunctionCall.marshal_unmarshal (f : FunctionCall) :
    f.marshal.unmarshal = f := by
  cases f with
  | mk n a =>
    simp [FunctionCall.marshal, EncodedFunctionCall.unmarshal, omitemptyStr_getD]

/-! ## Claims about the conditional serializer (C1, C2, C7) -/

/-- Claim C1: for every `ChatCompletionMessage` and every
`ChatCompletionStreamChoiceDelta` whose `FunctionCall` field equals the
zero `FunctionCall` value, the JSON encoding produced by `MarshalJSON`
contains no `function_call` key at all. -/
theorem marshalJSON_omits_zero_functionCall
    (m : ChatCompletionMessage) (d : ChatCompletionStreamChoiceDelta)
    (hm : m.functionCall = zeroFunctionCall)
    (hd : d.functionCall = zeroFunctionCall) :
    m.marshalJSON.function_call = none ∧ d.marshalJSON.function_call = none := by
  constructor
  · simp [ChatCompletionMessage.marshalJSON, hm]
  · simp [ChatCompletionStreamChoiceDelta.marshalJSON, hd]

/-- Witness for C1 at a concrete message and delta. -/
theorem marshalJSON_omits_zero_functionCall_witness :
    ({ role := "user", content := "hi", functionCall := zeroFunctionCall,
       name := "" } : ChatCompletionMessage).marshalJSON.function_call = none ∧
    ({ content := "hey", role := "assistant",
       functionCall := zeroFunctionCall } :
       ChatCompletionStreamChoiceDelta).marshalJSON.function_call = none :=
  marshalJSON_omits_zero_functionCall _ _ rfl rfl

/-- Counterexample to claim C2 as stated: the message below has a
non-zero `FunctionCall` (its name is "f"), yet the encoded
`function_call` value does **not** contain the `arguments` sub-field,
because `Arguments` carries an `omitempty` tag and is empty here. -/
theorem marshalJSON_functionCall_subfield_omitted :
    ({ role := "assistant", content := "",
       functionCall := { name := "f", arguments := "" },
       name := "" } : ChatCompletionMessage).functionCall ≠ zeroFunctionCall ∧
    ({ role := "assistant", content := "",
       functionCall := { name := "f", arguments := "" },
       name := "" } : ChatCompletionMessage).marshalJSON.function_call =
      some { name := some "f", arguments := none } := by
  constructor
  · decide
  · rfl

/-- Claim C2 (amended): for every `ChatCompletionMessage` whose
`FunctionCall` field is not the zero value, the encoding contains the
`function_call` key carrying the encoded sub-object; within it, each
sub-field (`name`, `arguments`) is present exactly when the
corresponding string is non-empty (both sub-fields carry `omitempty`). -/
theorem marshalJSON_functionCall_present_when_nonzero
    (m : ChatCompletionMessage) (h : m.functionCall ≠ zeroFunctionCall) :
    m.marshalJSON.function_call = some m.functionCall.marshal ∧
    (m.functionCall.name ≠ "" →
      m.functionCall.marshal.name = some m.functionCall.name) ∧
    (m.functionCall.arguments ≠ "" →
      m.functionCall.marshal.arguments = some m.functionCall.arguments) ∧
    (m.functionCall.name = "" → m.functionCall.marshal.name = none) ∧
    (m.functionCall.arguments = "" → m.functionCall.marshal.arguments = none) := by
  refine ⟨?_, ?_, ?_, ?_, ?_⟩
  · simp [ChatCompletionMessage.marshalJSON, h]
  all_goals intro hx
  all_goals simp [FunctionCall.marshal, omitemptyStr, hx]

/-- Witness for the amended C2 at a concrete message with both
sub-fields non-empty. -/
theorem marshalJSON_functionCall_present_when_nonzero_witness :
    ({ role := "assistant", content := "",
       functionCall := { name := "f", arguments := "\x7b\x7d" },
       name := "" } : ChatCompletionMessage).marshalJSON.function_call =
      some (FunctionCall.marshal { name := "f", arguments := "\x7b\x7d" }) :=
  (marshalJSON_functionCall_present_when_nonzero _ (by decide)).1

/-- Claim C7: for every `ChatCompletionMessage` m, decoding the JSON
produced by encoding m reconstructs a message equal to m, including when
the function-call field is unset. -/
theorem marshalJSON_unmarshal_roundtrip (m : ChatCompletionMessage) :
    m.marshalJSON.unmarshal = m := by
  cases m with
  | mk r co fc n =>
    by_cases h : fc = zeroFunctionCall
    · subst h
      simp [ChatCompletionMessage.marshalJSON, EncodedMessage.unmarshal,
        omitemptyStr_getD]
    · simp [ChatCompletionMessage.marshalJSON, EncodedMessage.unmarshal, h,
        omitemptyStr_getD, FunctionCall.marshal_unmarshal]

/-! ## Claims about the client operations (C3, C4, C5, C6, C9, C10) -/

/-- Shared helper: every effect performed by `CreateChatCompletionStream`
carries a request payload whose stream flag is true (line 85 forces it
before the request is built or dispatched). -/
theorem createChatCompletionStream_effects_stream (c : Client)
    (r : ChatCompletionRequest) :
    ∀ e ∈ (c.createChatCompletionStream r).2, e.payload.stream = true := by
  intro e he
  simp only [Client.createChatCompletionStream] at he
  split at he
  · simp at he
  · split at he
    · simp at he
    · split at he
      · simp at he
        subst he
        rfl
      · split at he
        · simp at he
          rcases he with rfl | rfl <;> rfl
        · split at he <;>
            (simp at he; rcases he with rfl | rfl <;> rfl)

/-- Claim C3: for every request with the stream flag true,
`CreateChatCompletion` returns `ErrChatCompletionStreamNotSupported` and
performs no I/O effect: no request is built and nothing is dispatched. -/
theorem createChatCompletion_rejects_stream (c : Client)
    (r : ChatCompletionRequest) (h : r.stream = true) :
    c.createChatCompletion r = (.error .chatCompletionStreamNotSupported, []) := by
  simp [Client.createChatCompletion, h]

/-- Witness for C3 at a concrete client and request. -/
theorem createChatCompletion_rejects_stream_witness :
    client0.createChatCompletion { req0 with stream := true } =
      (.error .chatCompletionStreamNotSupported, []) :=
  createChatCompletion_rejects_stream client0 { req0 with stream := true } rfl

/-- Claim C9: the precondition checks of `CreateChatCompletion` run in a
fixed order (stream flag, then plugin capability, then endpoint/model
pairing): a request with stream true yields the stream error regardless
of the later checks; with stream false a plugin-capability failure wins
over an endpoint failure; the endpoint error surfaces only when the
earlier checks pass. -/
theorem createChatCompletion_check_order (c : Client)
    (r : ChatCompletionRequest) :
    (r.stream = true →
      c.createChatCompletion r =
        (.error .chatCompletionStreamNotSupported, [])) ∧
    (r.stream = false → c.checkModelSupportsPlugins r.model = false →
      c.createChatCompletion r = (.error .modelNotSupportedWithPlugins, [])) ∧
    (r.stream = false → c.checkModelSupportsPlugins r.model = true →
      c.checkEndpointSupportsModel "/chat/completions" r.model = false →
      c.createChatCompletion r = (.error .chatCompletionInvalidModel, [])) := by
  refine ⟨?_, ?_, ?_⟩ <;> intros <;> simp [Client.createChatCompletion, *]

/-- Witness for C9: a request with stream true against a client whose
model checks all fail still gets the stream error. -/
theorem createChatCompletion_check_order_witness :
    clientReject.createChatCompletion { req0 with stream := true } =
      (.error .chatCompletionStreamNotSupported, []) :=
  (createChatCompletion_check_order clientReject
    { req0 with stream := true }).1 rfl

/-- Claim C4: every request payload that `CreateChatCompletionStream`
builds or dispatches has its stream flag equal to true, regardless of
the caller-supplied value. -/
theorem createChatCompletionStream_forces_stream (c : Client)
    (r : ChatCompletionRequest) (e : Effect)
    (h : e ∈ (c.createChatCompletionStream r).2) :
    e.payload.stream = true :=
  createChatCompletionStream_effects_stream c r e h

/-- Witness for C4: the build effect of a successful streaming call on a
request whose caller-supplied stream flag is false. -/
theorem createChatCompletionStream_forces_stream_witness :
    (Effect.buildRequest { req0 with stream := true }).payload.stream = true :=
  createChatCompletionStream_forces_stream client0 req0
    (Effect.buildRequest { req0 with stream := true }) (List.Mem.head _)

/-- Claim C5: when the HTTP dispatch of `CreateChatCompletionStream`
succeeds, a failure (non-2xx) status yields the structured API error
built from the response (and no stream value), while a success status
yields a stream reader over the response body configured with the
client's empty-message tolerance, a zero empty-message counter, and the
reader not finished. -/
theorem createChatCompletionStream_status_handling (c : Client)
    (r : ChatCompletionRequest) (resp : HTTPResponse)
    (h1 : c.checkModelSupportsPlugins r.model = true)
    (h2 : c.checkEndpointSupportsModel "/chat/completions" r.model = true)
    (h3 : c.streamBuildOutcome = .ok ())
    (h4 : c.doOutcome = .ok resp) :
    (isFailureStatusCode resp = true →
      (c.createChatCompletionStream r).1 =
        .error (.apiError resp.statusCode resp.errBody)) ∧
    (isFailureStatusCode resp = false →
      (c.createChatCompletionStream r).1 =
        .ok { emptyMessagesLimit := c.config.emptyMessagesLimit,
              emptyMessagesCount := 0, isFinished := false,
              lines := resp.bodyLines }) := by
  constructor <;> intro hf <;>
    simp [Client.createChatCompletionStream, h1, h2, h3, h4, hf,
      Client.handleErrorResp]

/-- Witness for C5 at a concrete client whose dispatch returns status
200. -/
theorem createChatCompletionStream_status_handling_witness :
    (isFailureStatusCode resp200 = true →
      (client0.createChatCompletionStream req0).1 =
        .error (.apiError resp200.statusCode resp200.errBody)) ∧
    (isFailureStatusCode resp200 = false →
      (client0.createChatCompletionStream req0).1 =
        .ok { emptyMessagesLimit := client0.config.emptyMessagesLimit,
              emptyMessagesCount := 0, isFinished := false,
              lines := resp200.bodyLines }) :=
  createChatCompletionStream_status_handling client0 req0 resp200
    rfl rfl rfl rfl

/-- Claim C6: in `CreateChatCompletionStream`, a model failing the
plugin-capability check yields `ErrModelNotSupportedWithPlugins` with no
I/O effect, and a model passing it but failing the endpoint pairing
check yields the distinct `ErrChatCompletionInvalidModel`, also with no
I/O effect. -/
theorem createChatCompletionStream_validation_errors (c : Client)
    (r : ChatCompletionRequest) :
    (c.checkModelSupportsPlugins r.model = false →
      c.createChatCompletionStream r =
        (.error .modelNotSupportedWithPlugins, [])) ∧
    (c.checkModelSupportsPlugins r.model = true →
      c.checkEndpointSupportsModel "/chat/completions" r.model = false →
      c.createChatCompletionStream r =
        (.error .chatCompletionInvalidModel, [])) := by
  constructor <;> intros <;> simp [Client.createChatCompletionStream, *]

/-- Witness for C6: the rejecting client returns the plugin-capability
error with an empty effect list. -/
theorem createChatCompletionStream_validation_errors_witness :
    clientReject.createChatCompletionStream req0 =
      (.error .modelNotSupportedWithPlugins, []) :=
  (createChatCompletionStream_validation_errors clientReject req0).1 rfl

/-- Claim C10: `CreateChatCompletionStream` receives the request by
value, so forcing the stream flag mutates only the callee's copy: after
the call the caller's request is unchanged (its stream flag still
false), even though every request the call built or dispatched has the
flag true. -/
theorem createChatCompletionStream_byvalue_frame (c : Client)
    (r : ChatCompletionRequest) (e : Effect) (h : r.stream = false)
    (he : e ∈ (c.createChatCompletionStreamByValueCall r).1.2) :
    (c.createChatCompletionStreamByValueCall r).2 = r ∧
    (c.createChatCompletionStreamByValueCall r).2.stream = false ∧
    e.payload.stream = true :=
  ⟨rfl, h, createChatCompletionStream_effects_stream c r e he⟩

/-- Witness for C10 at a concrete client, a request with the stream flag
false, and the build effect that call performs. -/
theorem createChatCompletionStream_byvalue_frame_witness :
    (client0.createChatCompletionStreamByValueCall req0).2 = req0 ∧
    (client0.createChatCompletionStreamByValueCall req0).2.stream = false ∧
    (Effect.buildRequest { req0 with stream := true }).payload.stream = true :=
  createChatCompletionStream_byvalue_frame client0 req0
    (Effect.buildRequest { req0 with stream := true }) rfl (List.Mem.head _)

/-! ## Claim about the streaming reader (C8) -/

/-- A run of blank lines within the tolerance is skipped, incrementing
the empty-message counter once per blank line. -/
theorem recvLoop_blanks {T : Type} (dec : Line → Option T) (t : Nat) :
    ∀ (N k : Nat) (ls : List Line), k + N ≤ t →
      recvLoop dec t k (List.replicate N [] ++ ls) =
        recvLoop dec t (k + N) ls := by
  intro N
  induction N with
  | zero => intro k ls _; simp
  | succ n ih =>
    intro k ls h
    rw [List.replicate_succ, List.cons_append, recvLoop]
    have hlt : ¬ t < k + 1 := by omega
    simp only [trimCRLF, List.reverse_nil, List.dropWhile_nil,
      List.isEmpty_nil, if_true, hlt, if_false]
    have := ih (k + 1) ls (by omega)
    rw [this]
    congr 1
    omega

/-- A non-blank line that does not start with the event-data marker is
protocol noise: it is skipped and leaves the empty-message counter
unchanged. -/
theorem recvLoop_noise {T : Type} (dec : Line → Option T) (t k : Nat)
    (ns : Line) (rest : List Line)
    (h1 : (trimCRLF ns).isEmpty = false)
    (h2 : headerData.isPrefixOf (trimCRLF ns) = false) :
    recvLoop dec t k (ns :: rest) = recvLoop dec t k rest := by
  rw [recvLoop]
  simp only [h1, h2, Bool.false_eq_true, if_false]

/-- A well-formed data line whose payload decodes successfully yields
`received` and resets the empty-message counter to zero. -/
theorem recvLoop_data {T : Type} (dec : Line → Option T) (t k : Nat)
    (payload : Line) (e : T) (rest : List Line)
    (htrim : trimCRLF (headerData ++ payload) = headerData ++ payload)
    (hne : payload ≠ doneSentinel)
    (hdec : dec payload = some e) :
    recvLoop dec t k ((headerData ++ payload) :: rest) =
      (.received e, 0, false, rest) := by
  rw [recvLoop]
  have hempty : (headerData ++ payload).isEmpty = false := rfl
  have hpre : headerData.isPrefixOf (headerData ++ payload) = true := by
    simp [headerData, List.isPrefixOf]
  have hdrop : (headerData ++ payload).drop headerData.length = payload := rfl
  simp only [htrim, hempty, Bool.false_eq_true, if_false, hpre, if_true,
    hdrop, hne, hdec]

/-- Claim C8: a reader with tolerance t fed N ≤ t (minus the current
count k) blank lines followed by one valid event line yields exactly one
`received` outcome — non-terminal, with the empty-message counter reset
to zero and the next call returning the clean `done` outcome rather than
another event; fed t+1 consecutive blank lines it yields the terminal
`failedEmptyExceeded` outcome, after which every call returns `done` and
no further event is ever produced; and the counter is not reset by
skipped noise lines, only by a successful decode. -/
theorem streamReader_empty_tolerance {T : Type} (dec : Line → Option T)
    (t N k : Nat) (payload : Line) (e : T) (extra : List Line)
    (ns : Line) (rest2 : List Line)
    (hN : k + N ≤ t)
    (htrim : trimCRLF (headerData ++ payload) = headerData ++ payload)
    (hne : payload ≠ doneSentinel)
    (hdec : dec payload = some e)
    (hns1 : (trimCRLF ns).isEmpty = false)
    (hns2 : headerData.isPrefixOf (trimCRLF ns) = false) :
    StreamReaderState.recv dec
        { emptyMessagesLimit := t, emptyMessagesCount := k,
          isFinished := false,
          lines := List.replicate N [] ++ [headerData ++ payload] } =
      (.received e,
       { emptyMessagesLimit := t, emptyMessagesCount := 0,
         isFinished := false, lines := [] }) ∧
    (RecvOutcome.received e).isTerminal = false ∧
    StreamReaderState.recv dec
        { emptyMessagesLimit := t, emptyMessagesCount := 0,
          isFinished := false, lines := [] } =
      ((.done : RecvOutcome T),
       { emptyMessagesLimit := t, emptyMessagesCount := 0,
         isFinished := true, lines := [] }) ∧
    StreamReaderState.recv dec
        { emptyMessagesLimit := t, emptyMessagesCount := 0,
          isFinished := false,
          lines := List.replicate (t + 1) [] ++ extra } =
      ((.failedEmptyExceeded : RecvOutcome T),
       { emptyMessagesLimit := t, emptyMessagesCount := t + 1,
         isFinished := true, lines := extra }) ∧
    (RecvOutcome.failedEmptyExceeded : RecvOutcome T).isTerminal = true ∧
    StreamReaderState.recv dec
        { emptyMessagesLimit := t, emptyMessagesCount := t + 1,
          isFinished := true, lines := extra } =
      ((.done : RecvOutcome T),
       { emptyMessagesLimit := t, emptyMessagesCount := t + 1,
         isFinished := true, lines := extra }) ∧
    recvLoop dec t k (ns :: rest2) = recvLoop dec t k rest2 := by
  refine ⟨?_, rfl, ?_, ?_, rfl, rfl, recvLoop_noise dec t k ns rest2 hns1 hns2⟩
  · have hb := recvLoop_blanks dec t N k [headerData ++ payload] hN
    have hd := recvLoop_data dec t (k + N) payload e [] htrim hne hdec
    simp [StreamReaderState.recv, hb, hd]
  · simp [StreamReaderState.recv, recvLoop]
  · have h1 : List.replicate (t + 1) ([] : Line) ++ extra =
        List.replicate t [] ++ ([] :: extra) := by
      rw [List.replicate_succ', List.append_assoc, List.singleton_append]
    have hb := recvLoop_blanks dec t t 0 ([] :: extra) (by omega)
    have hstep : recvLoop dec t t ([] :: extra) =
        ((.failedEmptyExceeded : RecvOutcome T), t + 1, true, extra) := by
      rw [recvLoop]
      simp [trimCRLF]
    simp [StreamReaderState.recv, h1, hb, hstep]

/-- Witness for C8 at tolerance 2, starting counter 1, one further blank
line, the event payload "42", a trailing line after the blank overrun,
and the noise line "no". -/
theorem streamReader_empty_tolerance_witness :
    StreamReaderState.recv decode42
        { emptyMessagesLimit := 2, emptyMessagesCount := 1,
          isFinished := false,
          lines := List.replicate 1 [] ++ [headerData ++ ['4', '2']] } =
      (.received 42,
       { emptyMessagesLimit := 2, emptyMessagesCount := 0,
         isFinished := false, lines := [] }) ∧
    (RecvOutcome.received 42).isTerminal = false ∧
    StreamReaderState.recv decode42
        { emptyMessagesLimit := 2, emptyMessagesCount := 0,
          isFinished := false, lines := [] } =
      ((.done : RecvOutcome Nat),
       { emptyMessagesLimit := 2, emptyMessagesCount := 0,
         isFinished := true, lines := [] }) ∧
    StreamReaderState.recv decode42
        { emptyMessagesLimit := 2, emptyMessagesCount := 0,
          isFinished := false,
          lines := List.replicate (2 + 1) [] ++ [['x']] } =
      ((.failedEmptyExceeded : RecvOutcome Nat),
       { emptyMessagesLimit := 2, emptyMessagesCount := 2 + 1,
         isFinished := true, lines := [['x']] }) ∧
    (RecvOutcome.failedEmptyExceeded : RecvOutcome Nat).isTerminal = true ∧
    StreamReaderState.recv decode42
        { emptyMessagesLimit := 2, emptyMessagesCount := 2 + 1,
          isFinished := true, lines := [['x']] } =
      ((.done : RecvOutcome Nat),
       { emptyMessagesLimit := 2, emptyMessagesCount := 2 + 1,
         isFinished := true, lines := [['x']] }) ∧
    recvLoop decode42 2 1 (['n', 'o'] :: []) = recvLoop decode42 2 1 [] :=
  streamReader_empty_tolerance decode42 2 1 1 ['4', '2'] 42 [['x']]
    ['n', 'o'] [] (by decide) (by decide) (by decide) (by decide)
    (by decide) (by decide)

end OpenAI
